import Mathlib

/-!
# Verification of the poll-cycle publisher in `data_collection/home_manager.py`

Shallow embedding of the module `home_manager.py`.  Python dictionaries
(`network.nodes`, `node.values`) are modelled as association lists
`List (Nat × _)`; dict-key uniqueness, where a theorem needs it, is an
explicit `Nodup` hypothesis.  The openzwave and InfluxDB collaborators are
opaque: a node carries the result of the vendor call `get_sensors()` as an
abstract field, and InfluxDB writes appear as explicit `Effect`s.  A raised
Python exception is an `Option String` error component; effects emitted
before the raise are kept, mirroring evaluation order.  The wall-clock
timestamp `time.asctime(time.localtime())` is abstracted to a `Nat` passed
to each cycle.  Numeric sensor data (`float(val.data)`) is modelled as `Rat`.
-/

namespace HomeManager

/-- Module constant DATABASE, the InfluxDB database name (home_manager.py line 11). -/
def DATABASE : String := "sterling_ranch"

/-- Module constant TIME_INTERVAL, the polling interval in seconds, 15 (line 12). -/
def TIME_INTERVAL : Nat := 15

/-- Module constant CONFIG_NUMBER, the Aeotec Multisensor 6 config
value key used for the poll-rate side channel (line 15). -/
def CONFIG_NUMBER : Nat := 72057594098484979

/-- An openzwave value: a sensor reading with its identifying metadata. -/
structure ZVal where
  value_id : Nat
  id_on_network : String
  label : String
  data : Rat
  units : String
  deriving DecidableEq, Repr

/-- An openzwave node.  `values` models the dict `node.values` keyed by
value id.  `isZWaveNodeSensor` models `isinstance(node, ZWaveNodeSensor)`
and `sensors` the result of the opaque vendor call `node.get_sensors()`
(a list of value ids of sensor command-class values). -/
structure ZNode where
  node_id : Nat
  home_id : Nat
  manufacturer_id : String
  product_id : String
  values : List (Nat × ZVal)
  isZWaveNodeSensor : Bool
  sensors : List Nat
  deriving DecidableEq, Repr

/-- The `tags` dict of an emitted point (lines 42-50). -/
structure Tags where
  id_on_network : String
  home_id : Nat
  node_id : Nat
  value_id : Nat
  manufacturer_id : String
  product_id : String
  label : String
  deriving DecidableEq, Repr

/-- The `fields` dict of an emitted point (lines 52-57). -/
structure Fields where
  data : Rat
  units : String
  type : String
  type_val : Nat
  deriving DecidableEq, Repr

/-- One outbound InfluxDB point (one JSON dict of the list built by
`value_refresh_to_influxdb_json`). -/
structure Record where
  measurement : String
  tags : Tags
  time : Nat
  fields : Fields
  deriving DecidableEq, Repr

/-- The single dict built for `(node, val)` at observation time `now`
(lines 40-58). -/
def mkRecord (node : ZNode) (val : ZVal) (now : Nat) : Record :=
  { measurement := "value_refresh",
    tags := { id_on_network := val.id_on_network,
              home_id := node.home_id,
              node_id := node.node_id,
              value_id := val.value_id,
              manufacturer_id := node.manufacturer_id,
              product_id := node.product_id,
              label := val.label },
    time := now,
    fields := { data := val.data, units := val.units,
                type := "none", type_val := 0 } }

/-- Function `value_refresh_to_influxdb_json(node, val)` (lines 34-58):
returns a singleton list holding the one point for the given pair. -/
def value_refresh_to_influxdb_json (node : ZNode) (val : ZVal) (now : Nat) :
    List Record :=
  [mkRecord node val now]

/-- The set `labels_to_be_polled` (line 128), the fixed label whitelist. -/
def labels_to_be_polled : List String :=
  ["Luminance", "Relative Humidity", "Temperature", "Ultraviolet",
   "Alarm Level", "Burglar"]

/-- Static method `is_sensor(node)` (lines 115-121):
`isinstance(node, ZWaveNodeSensor) and not len(node.get_sensors()) is 0`
(with CPython small-int interning, `len(...) is 0` is `len(...) == 0`). -/
def is_sensor (node : ZNode) : Bool :=
  node.isZWaveNodeSensor && !(node.sensors.length == 0)

/-- The sequence of `client.write_points` arguments the inner loop of
`start_polling` produces for one node: one singleton-list call per value
of the node whose label is whitelisted, in value order (lines 131-135). -/
def deviceCallsAux (node : ZNode) (vals : List (Nat × ZVal)) (now : Nat) :
    List (List Record) :=
  match vals with
  | [] => []
  | q :: rest =>
      if labels_to_be_polled.contains q.2.label then
        value_refresh_to_influxdb_json node q.2 now
          :: deviceCallsAux node rest now
      else deviceCallsAux node rest now

/-- The write calls contributed by one node of the poll loop. -/
def deviceWriteCalls (node : ZNode) (now : Nat) : List (List Record) :=
  deviceCallsAux node node.values now

/-- The full sequence of `client.write_points` calls of one poll cycle
over the node dict (lines 129-135): sensor nodes contribute their
whitelisted values, other nodes contribute nothing. -/
def cycleWriteCalls (nodes : List (Nat × ZNode)) (now : Nat) :
    List (List Record) :=
  match nodes with
  | [] => []
  | (_, node) :: rest =>
      (if is_sensor node then deviceWriteCalls node now else [])
        ++ cycleWriteCalls rest now

/-- The state of the `ZWaveNetwork` collaborator as the module sees it:
`id` models Python object identity (the `is` comparison in
`signal_network_ready`), `nodes` the dict `network.nodes`. -/
structure Network where
  id : Nat
  nodes : List (Nat × ZNode)
  deriving DecidableEq, Repr

/-- Dict lookup `network.nodes[nid]` as an `Option`. -/
def Network.findNode (net : Network) (nid : Nat) : Option ZNode :=
  (net.nodes.find? (fun p => p.1 == nid)).map (fun p => p.2)

/-- Dict lookup `node.values[vid]` as an `Option`. -/
def ZNode.findValue (node : ZNode) (vid : Nat) : Option ZVal :=
  (node.values.find? (fun p => p.1 == vid)).map (fun p => p.2)

/-- The chained lookup `network.nodes[3].values[CONFIG_NUMBER]` used by
both poll-rate side-channel writes (lines 92 and 112). -/
def node3Config (net : Network) : Option ZVal :=
  (net.findNode 3).bind (fun node => node.findValue CONFIG_NUMBER)

/-- Externally observable actions of the module, in evaluation order:
logging, the poll-rate configuration write `nodes[n].values[k].data = d`,
`network.stop()`, `Timer(delay, ...).start()`, and
`client.write_points(points)`. -/
inductive Effect where
  | logInfo (msg : String)
  | configWrite (nodeId : Nat) (valueKey : Nat) (datum : Rat)
  | networkStop
  | timerArm (delay : Nat)
  | writePoints (points : List Record)
  deriving DecidableEq, Repr

/-- Method `stop()` (lines 89-94): log, set
`nodes[3].values[CONFIG_NUMBER].data = 3600`, stop the network, log.
A missing node 3 or missing config value raises `KeyError` after the
first log and before `network.stop()`. -/
def hm_stop (net : Network) : List Effect × Option String :=
  match net.findNode 3 with
  | none => ([Effect.logInfo "Stopping network..."], some "KeyError")
  | some node =>
      match node.findValue CONFIG_NUMBER with
      | none => ([Effect.logInfo "Stopping network..."], some "KeyError")
      | some _ =>
          ([Effect.logInfo "Stopping network...",
            Effect.configWrite 3 CONFIG_NUMBER 3600,
            Effect.networkStop,
            Effect.logInfo "Stopped"], none)

/-- The inner loop of `start_polling` over the values of one sensor node
(lines 131-135).  `fails` is the oracle saying whether a given
`client.write_points` call raises; a raise aborts the loop, keeping the
log already emitted for the failing value. -/
def pollValues (node : ZNode) (vals : List (Nat × ZVal)) (now : Nat)
    (fails : List Record → Bool) : List Effect × Option String :=
  match vals with
  | [] => ([], none)
  | (_, val) :: rest =>
      if labels_to_be_polled.contains val.label then
        let call := value_refresh_to_influxdb_json node val now
        if fails call then
          ([Effect.logInfo "Received value refresh"], some "InfluxDBError")
        else
          let r := pollValues node rest now fails
          (Effect.logInfo "Received value refresh"
             :: Effect.writePoints call :: r.1, r.2)
      else pollValues node rest now fails

/-- The outer loop of `start_polling` over the node dict (lines 129-135):
non-sensor nodes are skipped; an exception from a write propagates,
abandoning the remaining nodes. -/
def pollNodes (nodes : List (Nat × ZNode)) (now : Nat)
    (fails : List Record → Bool) : List Effect × Option String :=
  match nodes with
  | [] => ([], none)
  | (_, node) :: rest =>
      if is_sensor node then
        let r := pollValues node node.values now fails
        match r.2 with
        | some e => (r.1, some e)
        | none =>
            let r2 := pollNodes rest now fails
            (r.1 ++ r2.1, r2.2)
      else pollNodes rest now fails

/-- Method `start_polling()` (lines 123-135): its first statement is
`Timer(TIME_INTERVAL, self.start_polling).start()` — the next cycle is
armed before any write is attempted — then the node loop runs. -/
def start_polling (net : Network) (now : Nat)
    (fails : List Record → Bool) : List Effect × Option String :=
  let r := pollNodes net.nodes now fails
  (Effect.timerArm TIME_INTERVAL :: r.1, r.2)

/-- Method `signal_network_ready(network)` (lines 101-113): a
notification for a network object other than `self.network` (the `is`
check, modelled by `id`) returns immediately with no effect; otherwise
debug logs, the poll-rate write `nodes[3].values[CONFIG_NUMBER].data = 15`
(raising `KeyError` when absent, before any polling), then
`start_polling()`. -/
def signal_network_ready (selfNet notif : Network) (now : Nat)
    (fails : List Record → Bool) : List Effect × Option String :=
  if selfNet.id != notif.id then ([], none)
  else
    match node3Config selfNet with
    | none =>
        ([Effect.logInfo "ozw_debug", Effect.logInfo "Network is ready!"],
         some "KeyError")
    | some _ =>
        let r := start_polling selfNet now fails
        (Effect.logInfo "ozw_debug" :: Effect.logInfo "Network is ready!"
           :: Effect.configWrite 3 CONFIG_NUMBER 15 :: r.1, r.2)

/-- Write-failure oracle for runs where every sink write succeeds. -/
def noFail : List Record → Bool := fun _ => false

/-- Projection of an effect trace to the `client.write_points` calls. -/
def writesOf (effs : List Effect) : List (List Record) :=
  effs.filterMap (fun e =>
    match e with
    | Effect.writePoints c => some c
    | _ => none)

/-- Sequential write loop with exception propagation over a flattened
call list: the reference characterization of the write behaviour of one
cycle, proved equal to the nested loop in `pollNodes_eq_writeLoop`. -/
def writeLoop (calls : List (List Record)) (fails : List Record → Bool) :
    List Effect × Option String :=
  match calls with
  | [] => ([], none)
  | c :: rest =>
      if fails c then
        ([Effect.logInfo "Received value refresh"], some "InfluxDBError")
      else
        let r := writeLoop rest fails
        (Effect.logInfo "Received value refresh"
           :: Effect.writePoints c :: r.1, r.2)

/-- Scheduler state for the timer loop: `pending` counts armed
`threading.Timer`s not yet fired, `stopped` records that `stop()` ran. -/
structure SysState where
  pending : Nat
  stopped : Bool
  deriving DecidableEq, Repr

/-- Scheduler events: `cycleFire` — a pending timer fires, running
`start_polling`, whose first statement arms a fresh timer; `stopCall` —
`stop()` runs. -/
inductive TimerEvent where
  | cycleFire
  | stopCall
  deriving DecidableEq, Repr

/-- One scheduler step.  `stop()` (lines 89-94) touches no timer, so
`pending` is unchanged by `stopCall`; a firing timer is consumed and
`start_polling` immediately re-arms one (line 127), so `pending` is
`pending - 1 + 1`. -/
def timerStep (s : SysState) : TimerEvent → Option (SysState × List Effect)
  | TimerEvent.cycleFire =>
      if s.pending == 0 then none
      else some (⟨s.pending - 1 + 1, s.stopped⟩,
                 [Effect.timerArm TIME_INTERVAL])
  | TimerEvent.stopCall =>
      some (⟨s.pending, true⟩, [Effect.networkStop])

/-- Run a sequence of scheduler events; `none` when some event was not
enabled (a timer fired with none pending). -/
def runEvents (s : SysState) : List TimerEvent → Option SysState
  | [] => some s
  | e :: rest =>
      match timerStep s e with
      | none => none
      | some (s2, _) => runEvents s2 rest

/-- Holds (`true`) when the trace contains a timer arming (a `cycleFire`, whose
first action arms the next timer) after a `stopCall`. -/
def armsAfterStop : List TimerEvent → Bool
  | [] => false
  | TimerEvent.stopCall :: rest =>
      rest.contains TimerEvent.cycleFire || armsAfterStop rest
  | _ :: rest => armsAfterStop rest

/-! ## Concrete fixtures -/

/-- The Temperature value of the concrete scenario in the spec: datum 21.5,
units "C". -/
def scenarioVal : ZVal :=
  { value_id := 72057594076037126,
    id_on_network := "0xdeadbeef.3.49",
    label := "Temperature",
    data := 21.5,
    units := "C" }

/-- The sensor device of the concrete scenario in the spec: id 3, manufacturer
id "0x0086", product id "0x0059", exposing `scenarioVal`. -/
def scenarioNode : ZNode :=
  { node_id := 3,
    home_id := 3735928559,
    manufacturer_id := "0x0086",
    product_id := "0x0059",
    values := [(72057594076037126, scenarioVal)],
    isZWaveNodeSensor := true,
    sensors := [72057594076037126] }

/-- Network snapshot holding only the scenario device. -/
def scenarioNet : Network := ⟨0, [(3, scenarioNode)]⟩

/-- The canonical pre-`start()` network state: the `ZWaveNetwork` is
constructed with `autostart=False`, so before `network.start()` runs no
nodes have been discovered and `network.nodes` is empty. -/
def preStartNet : Network := ⟨0, []⟩

/-- A value whose label ("Power") is not in the whitelist but which is a
sensor command-class value, so the vendor call `get_sensors()` reports it. -/
def powerVal : ZVal :=
  { value_id := 9,
    id_on_network := "0xdeadbeef.5.50",
    label := "Power",
    data := 12,
    units := "W" }

/-- A `ZWaveNodeSensor` with a nonempty `get_sensors()` list but zero
whitelisted values. -/
def powerNode : ZNode :=
  { node_id := 5,
    home_id := 3735928559,
    manufacturer_id := "0x0086",
    product_id := "0x0064",
    values := [(9, powerVal)],
    isZWaveNodeSensor := true,
    sensors := [9] }

/-- First of two whitelisted values on the write-failure fixture node. -/
def tempVal : ZVal :=
  { value_id := 11,
    id_on_network := "0xdeadbeef.4.49",
    label := "Temperature",
    data := 20,
    units := "C" }

/-- Second whitelisted value on the write-failure fixture node. -/
def humVal : ZVal :=
  { value_id := 12,
    id_on_network := "0xdeadbeef.4.50",
    label := "Relative Humidity",
    data := 55,
    units := "%" }

/-- A sensor node exposing two whitelisted values, for the write-failure
scenario. -/
def twoValNode : ZNode :=
  { node_id := 4,
    home_id := 3735928559,
    manufacturer_id := "0x0086",
    product_id := "0x0059",
    values := [(11, tempVal), (12, humVal)],
    isZWaveNodeSensor := true,
    sensors := [11, 12] }

/-- Network snapshot holding only the two-value node. -/
def twoValNet : Network := ⟨0, [(4, twoValNode)]⟩

/-- Failure oracle making exactly the first (Temperature) write raise. -/
def failFirst : List Record → Bool :=
  fun c => c == value_refresh_to_influxdb_json twoValNode tempVal 0

/-! ## Helper lemmas -/

/-- Unfolding equation of `deviceCallsAux` at a cons cell. -/
theorem deviceCallsAux_cons (node : ZNode) (q : Nat × ZVal)
    (rest : List (Nat × ZVal)) (now : Nat) :
    deviceCallsAux node (q :: rest) now
      = if labels_to_be_polled.contains q.2.label then
          value_refresh_to_influxdb_json node q.2 now
            :: deviceCallsAux node rest now
        else deviceCallsAux node rest now := rfl

/-- Unfolding equation of `cycleWriteCalls` at a cons cell. -/
theorem cycleWriteCalls_cons (p : Nat × ZNode) (rest : List (Nat × ZNode))
    (now : Nat) :
    cycleWriteCalls (p :: rest) now
      = (if is_sensor p.2 then deviceWriteCalls p.2 now else [])
          ++ cycleWriteCalls rest now := rfl

/-- A node none of whose values has a whitelisted label contributes no
write call. -/
theorem deviceCallsAux_eq_nil (node : ZNode) (now : Nat)
    (vals : List (Nat × ZVal))
    (h : ∀ q ∈ vals, labels_to_be_polled.contains q.2.label = false) :
    deviceCallsAux node vals now = [] := by
  induction vals with
  | nil => rfl
  | cons q rest ih =>
      rw [deviceCallsAux_cons, if_neg (by simpa using h q (by simp))]
      exact ih (fun q' hq' => h q' (List.mem_cons_of_mem q hq'))

/-- Every `write_points` call the inner value loop issues comes from a
value of the node whose label passed the whitelist test. -/
theorem pollValues_writePoints_mem {node : ZNode} {vals : List (Nat × ZVal)}
    {now : Nat} {fails : List Record → Bool} {c : List Record}
    (hc : Effect.writePoints c ∈ (pollValues node vals now fails).1) :
    ∃ q ∈ vals, labels_to_be_polled.contains q.2.label = true
      ∧ c = value_refresh_to_influxdb_json node q.2 now := by
  induction vals with
  | nil => simp [pollValues] at hc
  | cons q rest ih =>
      obtain ⟨qk, qv⟩ := q
      by_cases hl : labels_to_be_polled.contains qv.label = true
      · have hl' : qv.label ∈ labels_to_be_polled := by simpa using hl
        by_cases hf : fails (value_refresh_to_influxdb_json node qv now) = true
        · simp [pollValues, hl', hf] at hc
        · simp [pollValues, hl', hf] at hc
          rcases hc with hc | hc
          · exact ⟨(qk, qv), by simp, hl, by simp [hc]⟩
          · obtain ⟨q', hq', hlq', hcq'⟩ := ih hc
            exact ⟨q', by simp [hq'], hlq', hcq'⟩
      · have hl2 : qv.label ∉ labels_to_be_polled := by simpa using hl
        simp [pollValues, hl2] at hc
        obtain ⟨q', hq', hlq', hcq'⟩ := ih hc
        exact ⟨q', by simp [hq'], hlq', hcq'⟩

/-- Every `write_points` call the node loop issues comes from a sensor
node and one of its whitelisted values. -/
theorem pollNodes_writePoints_mem {nodes : List (Nat × ZNode)} {now : Nat}
    {fails : List Record → Bool} {c : List Record}
    (hc : Effect.writePoints c ∈ (pollNodes nodes now fails).1) :
    ∃ p ∈ nodes, is_sensor p.2 = true
      ∧ ∃ q ∈ p.2.values, labels_to_be_polled.contains q.2.label = true
        ∧ c = value_refresh_to_influxdb_json p.2 q.2 now := by
  induction nodes with
  | nil => simp [pollNodes] at hc
  | cons p rest ih =>
      obtain ⟨pk, pn⟩ := p
      by_cases hs : is_sensor pn
      · rw [show pollNodes ((pk, pn) :: rest) now fails
            = (if is_sensor pn then
                 let r := pollValues pn pn.values now fails
                 match r.2 with
                 | some e => (r.1, some e)
                 | none =>
                     let r2 := pollNodes rest now fails
                     (r.1 ++ r2.1, r2.2)
               else pollNodes rest now fails) from rfl, if_pos hs] at hc
        cases h2 : (pollValues pn pn.values now fails).2 with
        | some e =>
            simp only [h2] at hc
            obtain ⟨q, hq, hlq, hcq⟩ := pollValues_writePoints_mem hc
            exact ⟨(pk, pn), by simp, hs, q, hq, hlq, hcq⟩
        | none =>
            simp only [h2, List.mem_append] at hc
            rcases hc with hc | hc
            · obtain ⟨q, hq, hlq, hcq⟩ := pollValues_writePoints_mem hc
              exact ⟨(pk, pn), by simp, hs, q, hq, hlq, hcq⟩
            · obtain ⟨p', hp', hs', hrest⟩ := ih hc
              exact ⟨p', by simp [hp'], hs', hrest⟩
      · simp only [pollNodes, hs, if_false] at hc
        obtain ⟨p', hp', hs', hrest⟩ := ih hc
        exact ⟨p', by simp [hp'], hs', hrest⟩

/-- Erase the only cycle-dependent field of a Record, its observation
timestamp. -/
def eraseTime (r : Record) : Record :=
  { r with time := 0 }

/-- The per-node write calls are timestamp-independent up to `eraseTime`. -/
theorem deviceCallsAux_eraseTime (node : ZNode) (vals : List (Nat × ZVal))
    (t1 t2 : Nat) :
    (deviceCallsAux node vals t1).map (List.map eraseTime)
      = (deviceCallsAux node vals t2).map (List.map eraseTime) := by
  induction vals with
  | nil => rfl
  | cons q rest ih =>
      by_cases hl : labels_to_be_polled.contains q.2.label = true
      · have hh : ∀ t, List.map eraseTime
            (value_refresh_to_influxdb_json node q.2 t)
              = [mkRecord node q.2 0] := fun t => rfl
        rw [deviceCallsAux_cons, deviceCallsAux_cons, if_pos hl, if_pos hl,
          List.map_cons, List.map_cons, ih, hh, hh]
      · rw [deviceCallsAux_cons, deviceCallsAux_cons, if_neg hl, if_neg hl,
          ih]

/-- Unfolding equation of `writeLoop` at a cons cell. -/
theorem writeLoop_cons (c : List Record) (rest : List (List Record))
    (fails : List Record → Bool) :
    writeLoop (c :: rest) fails
      = if fails c then
          ([Effect.logInfo "Received value refresh"], some "InfluxDBError")
        else
          (Effect.logInfo "Received value refresh"
             :: Effect.writePoints c :: (writeLoop rest fails).1,
           (writeLoop rest fails).2) := rfl

/-- Behaviour of `writeLoop` over an append whose first part succeeds. -/
theorem writeLoop_append_ok {a b : List (List Record)}
    {fails : List Record → Bool} (h : (writeLoop a fails).2 = none) :
    writeLoop (a ++ b) fails
      = ((writeLoop a fails).1 ++ (writeLoop b fails).1,
         (writeLoop b fails).2) := by
  induction a with
  | nil => simp [writeLoop]
  | cons c rest ih =>
      by_cases hf : fails c = true
      · rw [writeLoop_cons, if_pos hf] at h
        simp at h
      · have h2 : (writeLoop rest fails).2 = none := by
          rw [writeLoop_cons, if_neg hf] at h
          exact h
        rw [List.cons_append, writeLoop_cons, if_neg hf, writeLoop_cons,
          if_neg hf, ih h2]
        simp

/-- Behaviour of `writeLoop` over an append whose first part raises: the rest of the
calls are abandoned. -/
theorem writeLoop_append_err {a b : List (List Record)}
    {fails : List Record → Bool} {e : String}
    (h : (writeLoop a fails).2 = some e) :
    writeLoop (a ++ b) fails = writeLoop a fails := by
  induction a with
  | nil => simp [writeLoop] at h
  | cons c rest ih =>
      by_cases hf : fails c = true
      · rw [List.cons_append, writeLoop_cons, if_pos hf, writeLoop_cons,
          if_pos hf]
      · have h2 : (writeLoop rest fails).2 = some e := by
          rw [writeLoop_cons, if_neg hf] at h
          exact h
        rw [List.cons_append, writeLoop_cons, if_neg hf, writeLoop_cons,
          if_neg hf, ih h2]

/-- Unfolding equation of `pollValues` at a cons cell. -/
theorem pollValues_cons (node : ZNode) (q : Nat × ZVal)
    (rest : List (Nat × ZVal)) (now : Nat) (fails : List Record → Bool) :
    pollValues node (q :: rest) now fails
      = if labels_to_be_polled.contains q.2.label then
          (if fails (value_refresh_to_influxdb_json node q.2 now) then
             ([Effect.logInfo "Received value refresh"], some "InfluxDBError")
           else
             (Effect.logInfo "Received value refresh"
                :: Effect.writePoints
                     (value_refresh_to_influxdb_json node q.2 now)
                :: (pollValues node rest now fails).1,
              (pollValues node rest now fails).2))
        else pollValues node rest now fails := rfl

/-- The inner value loop is the sequential write loop over the whitelisted
calls of the node. -/
theorem pollValues_eq_writeLoop (node : ZNode) (vals : List (Nat × ZVal))
    (now : Nat) (fails : List Record → Bool) :
    pollValues node vals now fails
      = writeLoop (deviceCallsAux node vals now) fails := by
  induction vals with
  | nil => rfl
  | cons q rest ih =>
      rw [pollValues_cons]
      by_cases hl : labels_to_be_polled.contains q.2.label = true
      · rw [if_pos hl, deviceCallsAux_cons, if_pos hl, writeLoop_cons]
        by_cases hf : fails (value_refresh_to_influxdb_json node q.2 now)
            = true
        · rw [if_pos hf, if_pos hf]
        · rw [if_neg hf, if_neg hf, ih]
      · rw [if_neg hl, deviceCallsAux_cons, if_neg hl, ih]

/-- Unfolding equation of `pollNodes` at a cons cell. -/
theorem pollNodes_cons (p : Nat × ZNode) (rest : List (Nat × ZNode))
    (now : Nat) (fails : List Record → Bool) :
    pollNodes (p :: rest) now fails
      = if is_sensor p.2 then
          (match (pollValues p.2 p.2.values now fails).2 with
           | some e => ((pollValues p.2 p.2.values now fails).1, some e)
           | none =>
               ((pollValues p.2 p.2.values now fails).1
                  ++ (pollNodes rest now fails).1,
                (pollNodes rest now fails).2))
        else pollNodes rest now fails := rfl

/-- Behaviour of `pollNodes` at a sensor node whose value loop raises. -/
theorem pollNodes_cons_err {p : Nat × ZNode} {rest : List (Nat × ZNode)}
    {now : Nat} {fails : List Record → Bool} {e : String}
    (hs : is_sensor p.2 = true)
    (h : (pollValues p.2 p.2.values now fails).2 = some e) :
    pollNodes (p :: rest) now fails
      = ((pollValues p.2 p.2.values now fails).1, some e) := by
  rw [pollNodes_cons, if_pos hs, h]

/-- Behaviour of `pollNodes` at a sensor node whose value loop succeeds. -/
theorem pollNodes_cons_ok {p : Nat × ZNode} {rest : List (Nat × ZNode)}
    {now : Nat} {fails : List Record → Bool}
    (hs : is_sensor p.2 = true)
    (h : (pollValues p.2 p.2.values now fails).2 = none) :
    pollNodes (p :: rest) now fails
      = ((pollValues p.2 p.2.values now fails).1
           ++ (pollNodes rest now fails).1,
         (pollNodes rest now fails).2) := by
  rw [pollNodes_cons, if_pos hs, h]

/-- The whole node loop is the sequential write loop over the flattened
cycle call list: an individual write failure abandons every remaining
call of the cycle. -/
theorem pollNodes_eq_writeLoop (nodes : List (Nat × ZNode)) (now : Nat)
    (fails : List Record → Bool) :
    pollNodes nodes now fails
      = writeLoop (cycleWriteCalls nodes now) fails := by
  induction nodes with
  | nil => rfl
  | cons p rest ih =>
      by_cases hs : is_sensor p.2 = true
      · cases h2 : (pollValues p.2 p.2.values now fails).2 with
        | some e =>
            have hw : (writeLoop (deviceCallsAux p.2 p.2.values now)
                fails).2 = some e := by
              rw [← pollValues_eq_writeLoop]
              exact h2
            rw [pollNodes_cons_err hs h2, cycleWriteCalls_cons, if_pos hs]
            simp only [deviceWriteCalls]
            rw [writeLoop_append_err hw, pollValues_eq_writeLoop, ← hw]
        | none =>
            have hw : (writeLoop (deviceCallsAux p.2 p.2.values now)
                fails).2 = none := by
              rw [← pollValues_eq_writeLoop]
              exact h2
            rw [pollNodes_cons_ok hs h2, cycleWriteCalls_cons, if_pos hs]
            simp only [deviceWriteCalls]
            rw [writeLoop_append_ok hw, pollValues_eq_writeLoop, ih]
      · rw [pollNodes_cons, if_neg hs, cycleWriteCalls_cons, if_neg hs,
          List.nil_append, ih]

/-- Effects the poll loop itself can emit: logging and sink writes only
(never a configuration write, a network stop, or a timer beyond the one
`start_polling` arms first). -/
def isPollEffect : Effect → Bool
  | Effect.logInfo _ => true
  | Effect.writePoints _ => true
  | _ => false

/-- The inner value loop emits only logging and sink-write effects. -/
theorem pollValues_effects (node : ZNode) (vals : List (Nat × ZVal))
    (now : Nat) (fails : List Record → Bool) :
    ((pollValues node vals now fails).1.all isPollEffect) = true := by
  induction vals with
  | nil => rfl
  | cons q rest ih =>
      rw [pollValues_cons]
      by_cases hl : labels_to_be_polled.contains q.2.label = true
      · rw [if_pos hl]
        by_cases hf : fails (value_refresh_to_influxdb_json node q.2 now)
            = true
        · rw [if_pos hf]
          rfl
        · rw [if_neg hf]
          simp [List.all_cons, isPollEffect, ih]
      · rw [if_neg hl]
        exact ih

/-- The node loop emits only logging and sink-write effects. -/
theorem pollNodes_effects (nodes : List (Nat × ZNode)) (now : Nat)
    (fails : List Record → Bool) :
    ((pollNodes nodes now fails).1.all isPollEffect) = true := by
  induction nodes with
  | nil => rfl
  | cons p rest ih =>
      by_cases hs : is_sensor p.2 = true
      · cases h2 : (pollValues p.2 p.2.values now fails).2 with
        | some e =>
            rw [pollNodes_cons_err hs h2]
            exact pollValues_effects p.2 p.2.values now fails
        | none =>
            rw [pollNodes_cons_ok hs h2]
            simp [List.all_append, pollValues_effects p.2 p.2.values now fails,
              ih]
      · rw [pollNodes_cons, if_neg hs]
        exact ih

/-- A predicate true on all logging and sink-write effects holds on every
effect the poll loop emits. -/
theorem all_of_all_isPollEffect {l : List Effect} {f : Effect → Bool}
    (hf : ∀ msg, f (Effect.logInfo msg) = true)
    (hw : ∀ pts, f (Effect.writePoints pts) = true)
    (h : l.all isPollEffect = true) : l.all f = true := by
  rw [List.all_eq_true] at h ⊢
  intro x hx
  have hx2 := h x hx
  cases x with
  | logInfo m => exact hf m
  | writePoints p => exact hw p
  | configWrite a b c => simp [isPollEffect] at hx2
  | networkStop => simp [isPollEffect] at hx2
  | timerArm d => simp [isPollEffect] at hx2

/-- Any configuration write of `stop()` targets node 3, value key
`CONFIG_NUMBER`, datum 3600. -/
def stopWriteTargets : Effect → Bool
  | Effect.configWrite n k d => (n == 3) && (k == CONFIG_NUMBER) && (d == 3600)
  | _ => true

/-- Any configuration write of the ready callback targets node 3, value
key `CONFIG_NUMBER`, datum 15. -/
def readyWriteTargets : Effect → Bool
  | Effect.configWrite n k d => (n == 3) && (k == CONFIG_NUMBER) && (d == 15)
  | _ => true

/-- Holds (`true`) on every effect that is not a timer arming. -/
def noTimerArm : Effect → Bool
  | Effect.timerArm _ => false
  | _ => true

/-- The records a poll cycle emits for a given (device, value) pair,
identified by the node-id and value-id tags. -/
def recordsForPair (calls : List (List Record)) (nid vid : Nat) :
    List Record :=
  calls.flatten.filter
    (fun r => r.tags.node_id == nid && r.tags.value_id == vid)

/-- Every record among the write calls of a node is the record of one of its
whitelisted values. -/
theorem mem_deviceCallsAux {node : ZNode} {vals : List (Nat × ZVal)}
    {now : Nat} {r : Record}
    (hr : r ∈ (deviceCallsAux node vals now).flatten) :
    ∃ q ∈ vals, labels_to_be_polled.contains q.2.label = true
      ∧ r = mkRecord node q.2 now := by
  induction vals with
  | nil => simp [deviceCallsAux] at hr
  | cons q rest ih =>
      rw [deviceCallsAux_cons] at hr
      by_cases hl : labels_to_be_polled.contains q.2.label = true
      · rw [if_pos hl, List.flatten_cons, List.mem_append] at hr
        rcases hr with hr | hr
        · refine ⟨q, by simp, hl, ?_⟩
          simpa [value_refresh_to_influxdb_json] using hr
        · obtain ⟨q', hq', hl', hr'⟩ := ih hr
          exact ⟨q', by simp [hq'], hl', hr'⟩
      · rw [if_neg hl] at hr
        obtain ⟨q', hq', hl', hr'⟩ := ih hr
        exact ⟨q', by simp [hq'], hl', hr'⟩

/-- A node other than the one selected by the node-id tag contributes
nothing to the filter of `recordsForPair`. -/
theorem filter_deviceCallsAux_ne_node {node : ZNode}
    {vals : List (Nat × ZVal)} {now nid vid : Nat}
    (hn : node.node_id ≠ nid) :
    (deviceCallsAux node vals now).flatten.filter
        (fun r => r.tags.node_id == nid && r.tags.value_id == vid) = [] := by
  apply List.filter_eq_nil_iff.mpr
  intro r hr
  obtain ⟨q, hq, hlq, rfl⟩ := mem_deviceCallsAux hr
  simp [mkRecord, hn]

/-- Values whose dict key differs from the selected value id contribute
nothing to the filter of `recordsForPair`. -/
theorem filter_deviceCallsAux_ne_vid {node : ZNode}
    {vals : List (Nat × ZVal)} {now nid vid : Nat}
    (hv : ∀ q ∈ vals, q.2.value_id = q.1)
    (hnot : ∀ q ∈ vals, q.1 ≠ vid) :
    (deviceCallsAux node vals now).flatten.filter
        (fun r => r.tags.node_id == nid && r.tags.value_id == vid) = [] := by
  apply List.filter_eq_nil_iff.mpr
  intro r hr
  obtain ⟨q, hq, hlq, rfl⟩ := mem_deviceCallsAux hr
  have hne : q.2.value_id ≠ vid := by
    rw [hv q hq]
    exact hnot q hq
  simp [mkRecord, hne]

/-- Within one node whose value dict has unique keys that agree with the
ids carried by the values, the filter for a whitelisted member value
keeps exactly the record of that value. -/
theorem filter_deviceCallsAux_pair {node : ZNode} {vals : List (Nat × ZVal)}
    {now vid : Nat} {val : ZVal}
    (hk : (vals.map Prod.fst).Nodup)
    (hv : ∀ q ∈ vals, q.2.value_id = q.1)
    (hmem : (vid, val) ∈ vals)
    (hlabel : labels_to_be_polled.contains val.label = true) :
    (deviceCallsAux node vals now).flatten.filter
        (fun r => r.tags.node_id == node.node_id
          && r.tags.value_id == val.value_id)
      = [mkRecord node val now] := by
  have hvid : val.value_id = vid := hv (vid, val) hmem
  induction vals with
  | nil => simp at hmem
  | cons q rest ih =>
      have hkc := List.nodup_cons.mp (by simpa using hk :
        (q.1 :: rest.map Prod.fst).Nodup)
      rw [deviceCallsAux_cons]
      rcases List.mem_cons.mp hmem with heq | hmem2
      · have hq2 : q.2 = val := by rw [← heq]
        have hq1 : q.1 = vid := by rw [← heq]
        rw [hq2, if_pos hlabel, List.flatten_cons, List.filter_append]
        have hhead : (value_refresh_to_influxdb_json node val now).filter
            (fun r => r.tags.node_id == node.node_id
              && r.tags.value_id == val.value_id)
            = [mkRecord node val now] := by
          simp [value_refresh_to_influxdb_json, mkRecord]
        have htail : (deviceCallsAux node rest now).flatten.filter
            (fun r => r.tags.node_id == node.node_id
              && r.tags.value_id == val.value_id) = [] := by
          apply filter_deviceCallsAux_ne_vid
            (fun q' hq' => hv q' (List.mem_cons_of_mem q hq'))
          intro q' hq' hcontra
          apply hkc.1
          rw [hq1, ← hvid, ← hcontra]
          exact List.mem_map_of_mem Prod.fst hq'
        rw [hhead, htail]
        rfl
      · have hq1ne : q.1 ≠ vid := by
          intro hcontra
          apply hkc.1
          rw [hcontra]
          exact List.mem_map_of_mem Prod.fst hmem2
        have hih := ih hkc.2
          (fun q' hq' => hv q' (List.mem_cons_of_mem q hq')) hmem2
        by_cases hl : labels_to_be_polled.contains q.2.label = true
        · rw [if_pos hl, List.flatten_cons, List.filter_append]
          have hhead : (value_refresh_to_influxdb_json node q.2 now).filter
              (fun r => r.tags.node_id == node.node_id
                && r.tags.value_id == val.value_id) = [] := by
            have hne : q.2.value_id ≠ val.value_id := by
              rw [hv q (by simp), hvid]
              exact hq1ne
            simp [value_refresh_to_influxdb_json, mkRecord, hne]
          rw [hhead, hih, List.nil_append]
        · rw [if_neg hl]
          exact hih

/-- Nodes whose dict key differs from the selected one contribute nothing
to the filter of `recordsForPair`. -/
theorem filter_cycle_ne (nodes : List (Nat × ZNode)) (now vid N : Nat)
    (hids : ∀ p ∈ nodes, p.2.node_id = p.1)
    (hne : ∀ p ∈ nodes, p.1 ≠ N) :
    (cycleWriteCalls nodes now).flatten.filter
        (fun r => r.tags.node_id == N && r.tags.value_id == vid) = [] := by
  induction nodes with
  | nil => rfl
  | cons p rest ih =>
      rw [cycleWriteCalls_cons, List.flatten_append, List.filter_append]
      have hrest := ih (fun p' hp' => hids p' (List.mem_cons_of_mem p hp'))
        (fun p' hp' => hne p' (List.mem_cons_of_mem p hp'))
      by_cases hs : is_sensor p.2 = true
      · rw [if_pos hs]
        have hn : p.2.node_id ≠ N := by
          rw [hids p (by simp)]
          exact hne p (by simp)
        rw [show deviceWriteCalls p.2 now
            = deviceCallsAux p.2 p.2.values now from rfl]
        rw [filter_deviceCallsAux_ne_node hn, hrest]
        rfl
      · rw [if_neg hs]
        simpa using hrest

/-- Every write call of a cycle carries exactly one record. -/
theorem deviceCallsAux_lengths (node : ZNode) (vals : List (Nat × ZVal))
    (now : Nat) :
    ((deviceCallsAux node vals now).all (fun c => c.length == 1)) = true := by
  induction vals with
  | nil => rfl
  | cons q rest ih =>
      rw [deviceCallsAux_cons]
      by_cases hl : labels_to_be_polled.contains q.2.label = true
      · rw [if_pos hl]
        simpa [value_refresh_to_influxdb_json] using ih
      · rw [if_neg hl]
        exact ih

/-- Every `write_points` call of a cycle carries exactly one record: the
sink is written one record per call, never batched. -/
theorem cycleWriteCalls_lengths (nodes : List (Nat × ZNode)) (now : Nat) :
    ((cycleWriteCalls nodes now).all (fun c => c.length == 1)) = true := by
  induction nodes with
  | nil => rfl
  | cons p rest ih =>
      rw [cycleWriteCalls_cons]
      by_cases hs : is_sensor p.2 = true
      · rw [if_pos hs]
        simp [List.all_append, ih,
          show deviceWriteCalls p.2 now
            = deviceCallsAux p.2 p.2.values now from rfl,
          deviceCallsAux_lengths]
      · rw [if_neg hs]
        simpa using ih

/-! ## Claim theorems -/

/-- C1: for a device dict with unique keys agreeing with the ids carried
by the nodes (the Python dict invariant), a sensor-classified device `node` and a
whitelisted value `val` of it yield exactly one Record in the cycle for
the pair — the singleton `mkRecord node val now`, whose tags are exactly
the identifying fields of `node` and `val` (id_on_network, home id, node
id, value id, manufacturer id, product id, label) and whose fields hold
the datum and unit string of `val` — and every `write_points` call of the
cycle carries exactly one Record (one write call per Record). -/
theorem C1_one_record_per_whitelisted_value
    (nodes : List (Nat × ZNode)) (now nid vid : Nat) (node : ZNode)
    (val : ZVal)
    (hkeys : (nodes.map Prod.fst).Nodup)
    (hids : ∀ p ∈ nodes, p.2.node_id = p.1)
    (hvids : ∀ p ∈ nodes, ∀ q ∈ p.2.values, q.2.value_id = q.1)
    (hvkeys : ∀ p ∈ nodes, (p.2.values.map Prod.fst).Nodup)
    (hmem : (nid, node) ∈ nodes)
    (hsensor : is_sensor node = true)
    (hval : (vid, val) ∈ node.values)
    (hlabel : labels_to_be_polled.contains val.label = true) :
    recordsForPair (cycleWriteCalls nodes now) node.node_id val.value_id
        = [mkRecord node val now]
      ∧ ((cycleWriteCalls nodes now).all (fun c => c.length == 1)) = true := by
  refine ⟨?_, cycleWriteCalls_lengths nodes now⟩
  have hnid : node.node_id = nid := hids (nid, node) hmem
  unfold recordsForPair
  induction nodes with
  | nil => simp at hmem
  | cons p rest ih =>
      have hkc := List.nodup_cons.mp (by simpa using hkeys :
        (p.1 :: rest.map Prod.fst).Nodup)
      rw [cycleWriteCalls_cons, List.flatten_append, List.filter_append]
      rcases List.mem_cons.mp hmem with heq | hmem2
      · have hp2 : p.2 = node := by rw [← heq]
        have hp1 : p.1 = nid := by rw [← heq]
        rw [hp2, if_pos hsensor, show deviceWriteCalls node now
          = deviceCallsAux node node.values now from rfl]
        have hvn : ∀ q ∈ node.values, q.2.value_id = q.1 := by
          rw [← hp2]
          exact hvids p (by simp)
        have hvkn : (node.values.map Prod.fst).Nodup := by
          rw [← hp2]
          exact hvkeys p (by simp)
        rw [filter_deviceCallsAux_pair hvkn hvn hval hlabel]
        have hne : ∀ p' ∈ rest, p'.1 ≠ node.node_id := by
          intro p' hp' hcontra
          apply hkc.1
          rw [hp1, ← hnid, ← hcontra]
          exact List.mem_map_of_mem Prod.fst hp'
        rw [filter_cycle_ne rest now val.value_id node.node_id
          (fun p' hp' => hids p' (List.mem_cons_of_mem p hp')) hne]
        rfl
      · have hp1ne : p.1 ≠ nid := by
          intro hcontra
          apply hkc.1
          rw [hcontra]
          exact List.mem_map_of_mem Prod.fst hmem2
        have hih := ih hkc.2
          (fun p' hp' => hids p' (List.mem_cons_of_mem p hp'))
          (fun p' hp' => hvids p' (List.mem_cons_of_mem p hp'))
          (fun p' hp' => hvkeys p' (List.mem_cons_of_mem p hp'))
          hmem2
        by_cases hs : is_sensor p.2 = true
        · rw [if_pos hs, show deviceWriteCalls p.2 now
            = deviceCallsAux p.2 p.2.values now from rfl]
          have hn : p.2.node_id ≠ node.node_id := by
            rw [hids p (by simp), hnid]
            exact hp1ne
          rw [filter_deviceCallsAux_ne_node hn, hih, List.nil_append]
        · rw [if_neg hs]
          simpa using hih

/-- C1 witness: in the two-value snapshot, the humidity value of node 4
yields exactly its own record, and every write call is a singleton. -/
theorem C1_witness :
    recordsForPair (cycleWriteCalls [(4, twoValNode)] 0)
        twoValNode.node_id humVal.value_id
        = [mkRecord twoValNode humVal 0]
      ∧ ((cycleWriteCalls [(4, twoValNode)] 0).all
          (fun c => c.length == 1)) = true :=
  C1_one_record_per_whitelisted_value [(4, twoValNode)] 0 4 12 twoValNode
    humVal (by decide) (by decide) (by decide) (by decide) (by decide)
    (by decide) (by decide) (by decide)

/-- C2: every Record a poll cycle ever writes has a whitelisted label —
for any snapshot and any write-failure behaviour, each record of each
`write_points` call issued by `start_polling` carries a `label` tag in
{Luminance, Relative Humidity, Temperature, Ultraviolet, Alarm Level,
Burglar}; hence no Record is ever produced for a value with a
non-whitelisted label, regardless of how its device is classified. -/
theorem C2_only_whitelisted_labels_emitted (net : Network) (now : Nat)
    (fails : List Record → Bool) (c : List Record) (r : Record)
    (hc : Effect.writePoints c ∈ (start_polling net now fails).1)
    (hr : r ∈ c) :
    r.tags.label ∈ labels_to_be_polled := by
  have hc2 : Effect.writePoints c ∈ (pollNodes net.nodes now fails).1 := by
    simpa [start_polling] using hc
  obtain ⟨p, hp, hs, q, hq, hlq, hcq⟩ := pollNodes_writePoints_mem hc2
  subst hcq
  have hr2 : r = mkRecord p.2 q.2 now := by
    simpa [value_refresh_to_influxdb_json] using hr
  subst hr2
  simpa [mkRecord] using hlq

/-- C2 witness: in the two-value snapshot, the humidity record is among
the emitted write calls and its label tag is whitelisted. -/
theorem C2_witness :
    (mkRecord twoValNode humVal 0).tags.label ∈ labels_to_be_polled :=
  C2_only_whitelisted_labels_emitted twoValNet 0 noFail
    (value_refresh_to_influxdb_json twoValNode humVal 0)
    (mkRecord twoValNode humVal 0) (by decide) (by decide)

/-- C9: two poll cycles over the same unchanged snapshot produce
structurally identical Record sets — after erasing the observation
timestamp, the sequences of write calls at any two cycle times agree on
measurement, tags and fields (so N cycles give N structurally identical
sets, pairwise differing only in timestamps). -/
theorem C9_cycles_structurally_identical (nodes : List (Nat × ZNode))
    (t1 t2 : Nat) :
    (cycleWriteCalls nodes t1).map (List.map eraseTime)
      = (cycleWriteCalls nodes t2).map (List.map eraseTime) := by
  induction nodes with
  | nil => rfl
  | cons p rest ih =>
      obtain ⟨pk, pn⟩ := p
      by_cases hs : is_sensor pn = true
      · simp only [cycleWriteCalls, hs, if_true, List.map_append,
          deviceWriteCalls]
        rw [deviceCallsAux_eraseTime pn pn.values t1 t2, ih]
      · have hs2 : is_sensor pn = false := by simpa using hs
        simpa [cycleWriteCalls, hs2] using ih

/-- C8: for the concrete scenario — sensor device id 3 exposing a value
labelled "Temperature" with datum 21.5, units "C", manufacturer id
"0x0086", product id "0x0059" — one poll cycle issues exactly one
`write_points` call, with one Record whose measurement is
"value_refresh", whose tags include label = "Temperature", and whose
fields hold data 21.5 and units "C". -/
theorem C8_concrete_scenario :
    writesOf (start_polling scenarioNet 0 noFail).1
      = [[{ measurement := "value_refresh",
            tags := { id_on_network := "0xdeadbeef.3.49",
                      home_id := 3735928559,
                      node_id := 3,
                      value_id := 72057594076037126,
                      manufacturer_id := "0x0086",
                      product_id := "0x0059",
                      label := "Temperature" },
            time := 0,
            fields := { data := 21.5, units := "C",
                        type := "none", type_val := 0 } }]] := rfl

/-- C3 counterexample: in the canonical pre-`start()` network state (no
nodes discovered yet) `stop()` raises `KeyError` on the unguarded lookup
`self.network.nodes[3]` — so "calling stop() before start() does not
crash, for every network state in which start() has not run" is false;
the network is moreover never stopped. -/
theorem C3_counterexample :
    (hm_stop preStartNet).2 = some "KeyError"
      ∧ (hm_stop preStartNet).1.contains Effect.networkStop = false := by
  decide

/-- C3 amended: `stop()` before `start()` never issues the poll-rate
"start" write (its only configuration write carries datum 3600, never
15); but it completes without raising exactly when node 3 with value key
`CONFIG_NUMBER` is present — in any other state, the pre-`start()` empty
network included, it raises `KeyError`. -/
theorem C3_no_start_write_but_raises_without_node3 (net : Network) :
    ((hm_stop net).1.all (fun e =>
        match e with
        | Effect.configWrite _ _ d => d == 3600
        | _ => true)) = true
      ∧ (hm_stop net).2.isNone = (node3Config net).isSome := by
  cases h1 : net.findNode 3 with
  | none => simp [hm_stop, node3Config, h1]
  | some node =>
      cases h2 : node.findValue CONFIG_NUMBER with
      | none => simp [hm_stop, node3Config, h1, h2]
      | some v => simp [hm_stop, node3Config, h1, h2]

/-- C4 counterexample: from the state with one armed timer and `stop()`
not yet called, the event sequence "stop(), then the pending timer
fires" is a valid execution — `stop()` cancels nothing — and it arms a
new timer after the stop: "every timer arming happens before the stop()
call" is false. -/
theorem C4_counterexample :
    runEvents ⟨1, false⟩ [TimerEvent.stopCall, TimerEvent.cycleFire]
        = some ⟨1, true⟩
      ∧ armsAfterStop [TimerEvent.stopCall, TimerEvent.cycleFire] = true := by
  decide

/-- C4 amended: `stop()` performs no timer cancellation — it leaves the
pending-timer count unchanged — and whenever a timer is pending at the
stop, the trace "stop, then fire" remains a valid execution, so the
firing cycle re-arms a timer after `stop()`.  Only the vendor network is
stopped. -/
theorem C4_stop_cancels_no_timer (s : SysState) (h : 0 < s.pending) :
    timerStep s TimerEvent.stopCall
        = some (⟨s.pending, true⟩, [Effect.networkStop])
      ∧ runEvents s [TimerEvent.stopCall, TimerEvent.cycleFire]
        = some ⟨s.pending, true⟩ := by
  have h0 : (s.pending == 0) = false := by
    simp only [beq_eq_false_iff_ne, ne_eq]
    omega
  have h1 : s.pending - 1 + 1 = s.pending := Nat.succ_pred_eq_of_pos h
  exact ⟨rfl, by simp [runEvents, timerStep, h0, h1]⟩

/-- C4 witness: the amended theorem applied at the concrete state with
one pending timer. -/
theorem C4_witness :
    timerStep ⟨1, false⟩ TimerEvent.stopCall
        = some (⟨1, true⟩, [Effect.networkStop])
      ∧ runEvents ⟨1, false⟩ [TimerEvent.stopCall, TimerEvent.cycleFire]
        = some ⟨1, true⟩ :=
  C4_stop_cancels_no_timer ⟨1, false⟩ (by decide)

/-- C5 counterexample: `powerNode` is a `ZWaveNodeSensor` whose vendor
`get_sensors()` list is nonempty but none of whose values has a
whitelisted label: it has zero whitelisted values yet `is_sensor`
classifies it as a sensor, refuting "a device is classified as a sensor
if and only if it exposes at least one value whose label matches the
whitelist". -/
theorem C5_counterexample :
    is_sensor powerNode = true
      ∧ (powerNode.values.all
          (fun q => !(labels_to_be_polled.contains q.2.label))) = true
      ∧ deviceWriteCalls powerNode 0 = [] := by
  decide

/-- C5 amended: a device with zero whitelisted values contributes zero
Records to a poll cycle — its write-call list is empty and dropping it
from the node dict leaves the cycle output unchanged — but it may
still be classified as a sensor: `is_sensor` tests only the node type
and the vendor `get_sensors()` list, not the whitelist. -/
theorem C5_no_whitelisted_values_no_records (node : ZNode)
    (now nid : Nat) (rest : List (Nat × ZNode))
    (h : ∀ q ∈ node.values, labels_to_be_polled.contains q.2.label = false) :
    deviceWriteCalls node now = []
      ∧ cycleWriteCalls ((nid, node) :: rest) now = cycleWriteCalls rest now := by
  have hdev : deviceWriteCalls node now = [] :=
    deviceCallsAux_eq_nil node now node.values h
  refine ⟨hdev, ?_⟩
  show (if is_sensor node then deviceWriteCalls node now else [])
      ++ cycleWriteCalls rest now = cycleWriteCalls rest now
  rw [hdev]
  cases is_sensor node <;> simp

/-- C5 witness: the amended theorem applied at the concrete sensor node
with zero whitelisted values. -/
theorem C5_witness :
    deviceWriteCalls powerNode 0 = []
      ∧ cycleWriteCalls ((7, powerNode) :: []) 0 = cycleWriteCalls [] 0 :=
  C5_no_whitelisted_values_no_records powerNode 0 7 [] (by decide)

/-- C6 counterexample: in the two-value snapshot, when the write for the
first (Temperature) record raises, the cycle ends with the unhandled
exception, the humidity record is never written, and in fact no record
at all is written — the failure is not "logged and skipped" and it does
abort the remaining writes of the current cycle. -/
theorem C6_counterexample :
    (start_polling twoValNet 0 failFirst).2 = some "InfluxDBError"
      ∧ ((start_polling twoValNet 0 failFirst).1.contains
          (Effect.writePoints
            (value_refresh_to_influxdb_json twoValNode humVal 0))) = false
      ∧ writesOf (start_polling twoValNet 0 failFirst).1 = [] := by
  decide

/-- C6 amended: a sink write failure is unhandled — the exception
propagates out of the cycle, abandoning all remaining writes of the
cycle (the node loop equals the sequential write loop with abort) — but
future cycles are unaffected: the first effect of every cycle, before
any write is attempted and regardless of write errors, is arming the
timer of the next cycle with the fixed 15-second delay. -/
theorem C6_write_failure_aborts_cycle_but_not_timer (net : Network)
    (now : Nat) (fails : List Record → Bool) :
    start_polling net now fails
      = (Effect.timerArm TIME_INTERVAL
           :: (writeLoop (cycleWriteCalls net.nodes now) fails).1,
         (writeLoop (cycleWriteCalls net.nodes now) fails).2) := by
  unfold start_polling
  rw [pollNodes_eq_writeLoop]

/-- C7: a "network ready" notification carrying a network object other
than the one this `HomeManager` was built against (the `is` identity
check, modelled by `id`) is a complete no-op: no effect is emitted — no
poll-rate write, no timer, no write call — and no exception is raised. -/
theorem C7_foreign_network_ready_noop (selfNet notif : Network)
    (now : Nat) (fails : List Record → Bool)
    (h : selfNet.id ≠ notif.id) :
    signal_network_ready selfNet notif now fails = ([], none) := by
  unfold signal_network_ready
  simp [h]

/-- C7 witness: two concrete network instances with different identities;
the mismatched notification does nothing. -/
theorem C7_witness :
    signal_network_ready ⟨0, []⟩ ⟨1, []⟩ 0 noFail = ([], none) :=
  C7_foreign_network_ready_noop ⟨0, []⟩ ⟨1, []⟩ 0 noFail (by decide)

/-- C10: every poll-rate side-channel write targets the hardcoded node
id 3 and the fixed value key `CONFIG_NUMBER` — `stop()` only ever writes
datum 3600 there and the ready callback only ever writes datum 15 there —
and in every network state where node 3 (or that value key on node 3) is
absent, `stop()` raises `KeyError` before stopping the network and the
ready callback (for the matching instance) raises `KeyError` before
starting any polling (no timer is armed). -/
theorem C10_side_channel_hardcoded_node3 (net : Network) (now : Nat)
    (fails : List Record → Bool) :
    ((hm_stop net).1.all stopWriteTargets) = true
      ∧ ((signal_network_ready net net now fails).1.all readyWriteTargets)
          = true
      ∧ (node3Config net = none →
          (hm_stop net).2 = some "KeyError"
            ∧ ((hm_stop net).1.contains Effect.networkStop) = false
            ∧ (signal_network_ready net net now fails).2 = some "KeyError"
            ∧ ((signal_network_ready net net now fails).1.all noTimerArm)
                = true) := by
  refine ⟨?_, ?_, ?_⟩
  · cases h1 : net.findNode 3 with
    | none => simp [hm_stop, h1, stopWriteTargets]
    | some node =>
        cases h2 : node.findValue CONFIG_NUMBER with
        | none => simp [hm_stop, h1, h2, stopWriteTargets]
        | some v => simp [hm_stop, h1, h2, stopWriteTargets]
  · cases hm : node3Config net with
    | none => simp [signal_network_ready, hm, readyWriteTargets]
    | some v =>
        have hsig : (signal_network_ready net net now fails).1
            = Effect.logInfo "ozw_debug"
              :: Effect.logInfo "Network is ready!"
              :: Effect.configWrite 3 CONFIG_NUMBER 15
              :: Effect.timerArm TIME_INTERVAL
              :: (pollNodes net.nodes now fails).1 := by
          simp [signal_network_ready, hm, start_polling]
        rw [hsig]
        simp only [List.all_cons, readyWriteTargets]
        simp only [beq_self_eq_true, Bool.and_self, Bool.true_and]
        exact all_of_all_isPollEffect (fun msg => rfl) (fun pts => rfl)
          (pollNodes_effects net.nodes now fails)
  · intro hmiss
    have hstop : hm_stop net
        = ([Effect.logInfo "Stopping network..."], some "KeyError") := by
      cases h1 : net.findNode 3 with
      | none => simp [hm_stop, h1]
      | some node =>
          have h2 : node.findValue CONFIG_NUMBER = none := by
            rw [node3Config, h1] at hmiss
            simpa using hmiss
          simp [hm_stop, h1, h2]
    have hready : signal_network_ready net net now fails
        = ([Effect.logInfo "ozw_debug", Effect.logInfo "Network is ready!"],
           some "KeyError") := by
      simp [signal_network_ready, hmiss]
    rw [hstop, hready]
    exact ⟨rfl, rfl, rfl, rfl⟩

/-- C10 witness: at the empty pre-`start()` network, where node 3 is
absent, both side-channel operations raise before their follow-on
action. -/
theorem C10_witness :
    ((hm_stop preStartNet).1.all stopWriteTargets) = true
      ∧ ((signal_network_ready preStartNet preStartNet 0 noFail).1.all
          readyWriteTargets) = true
      ∧ (hm_stop preStartNet).2 = some "KeyError"
      ∧ ((hm_stop preStartNet).1.contains Effect.networkStop) = false
      ∧ (signal_network_ready preStartNet preStartNet 0 noFail).2
          = some "KeyError"
      ∧ ((signal_network_ready preStartNet preStartNet 0 noFail).1.all
          noTimerArm) = true := by
  have h := C10_side_channel_hardcoded_node3 preStartNet 0 noFail
  exact ⟨h.1, h.2.1, h.2.2 (by decide)⟩

end HomeManager
